import Mathlib

/-!
Verification of the rFlow SDK core (shallow embedding)

This file embeds the core pure logic of the rFlow SDK (fixed-point amount
codec, record transformer, query filtering, input validation, error
classification) as executable Lean definitions, translated from the
TypeScript source, and proves the specified properties about them.

Modelling conventions:
* `BN` (arbitrary-precision integer) is modelled as `Int` (or `Nat` where the
  decoded on-chain field is an unsigned quantity).
* JS strings are modelled as `String` / `List Char`; decimal rendering of a
  `BN` (its `toString()`) is modelled by an explicit base-10 renderer.
* `Date` values are modelled as milliseconds since epoch (`Int`), matching
  `new Date(ms)` / `Date.now()`.
* Thrown JS errors are modelled with `Except`; a JS `Error` object (including
  the SDK's `RFlowError` subclasses) is modelled by `RFlowErrorValue`
  carrying `name`, `message` and the optional `code`, `logs`, `cause` fields.
* `PublicKey` is modelled as `Nat`, with `0` standing for the all-zero
  default key `PublicKey.default`; base58 rendering is modelled abstractly
  by decimal rendering (only its presence in messages matters here).
-/

namespace RFlowSdk

/-! ## Character / digit-string helpers (model of JS string primitives) -/

/-- Value of a big-endian string of decimal digit characters, as computed by
JS `parseInt(s, 10)` / `new BN(s)` on an all-digit string. -/
def digitsVal (l : List Char) : Nat :=
  l.foldl (fun acc c => acc * 10 + (c.toNat - 48)) 0

/-- Little-endian decimal digits of `n`, with explicit recursion fuel so
that the definition is structural and reduces inside the kernel. -/
def natToDigitsRevFuel : Nat → Nat → List Char
  | 0, _ => []
  | fuel + 1, n =>
    if n < 10 then [Nat.digitChar n]
    else Nat.digitChar (n % 10) :: natToDigitsRevFuel fuel (n / 10)

/-- Little-endian list of decimal digit characters of `n`. -/
def natToDigitsRev (n : Nat) : List Char :=
  natToDigitsRevFuel (n + 1) n

/-- Big-endian decimal digit characters of `n`: model of `BN.toString()` /
`Number.toString()` for a non-negative integral value. -/
def natToDecimal (n : Nat) : List Char :=
  (natToDigitsRev n).reverse

/-- Decimal rendering of a natural number as a `String`. -/
def natToString (n : Nat) : String :=
  String.mk (natToDecimal n)

/-- Decimal rendering of an integer: model of `BN.toString()`. -/
def intToString (i : Int) : String :=
  if i < 0 then "-" ++ natToString i.natAbs else natToString i.natAbs

/-- Model of `String.prototype.padStart(targetLength, c)`. -/
def padStartList (l : List Char) (n : Nat) (c : Char) : List Char :=
  List.replicate (n - l.length) c ++ l

/-- Model of `String.prototype.padEnd(targetLength, c)`. -/
def padEndList (l : List Char) (n : Nat) (c : Char) : List Char :=
  l ++ List.replicate (n - l.length) c

/-- Model of `String.prototype.trim()` (remove leading and trailing
whitespace). -/
def trimList (l : List Char) : List Char :=
  ((l.dropWhile Char.isWhitespace).reverse.dropWhile Char.isWhitespace).reverse

/-- Model of ASCII `String.prototype.toLowerCase()` on one character. -/
def jsToLowerChar (c : Char) : Char :=
  if 65 ≤ c.toNat ∧ c.toNat ≤ 90 then Char.ofNat (c.toNat + 32) else c

/-- Model of ASCII `String.prototype.toLowerCase()`. -/
def jsToLowerCase (l : List Char) : List Char :=
  l.map jsToLowerChar

/-- Substring test: model of `String.prototype.includes(pat)`. -/
def containsSub (l pat : List Char) : Bool :=
  l.tails.any (fun t => pat.isPrefixOf t)

/-- String-level substring test, model of `s.includes(pat)`. -/
def strContains (s pat : String) : Bool :=
  containsSub s.data pat.data

/-! ## Fixed-point amount codec (embedding of `src/utils/bn.ts`) -/

/-- Errors raised by the amount codec: `InvalidAmountFormatError` and the
plain `Error` thrown for an invalid `decimals` parameter. -/
inductive AmountError where
  | invalidAmountFormat (value : String)
  | invalidDecimals (decimals : ℚ)
deriving DecidableEq

/-- A JS `number | BN` argument. JS numbers are modelled as integers (the
SDK only ever passes integral amounts; `new BN` requires an integer). -/
inductive NumberOrBN where
  | num (n : Int)
  | bn (b : Int)
deriving DecidableEq

/-- Numeric value of a `number | BN` argument, as used by
`typeof x === "number" ? new BN(x) : x`. -/
def NumberOrBN.value : NumberOrBN → Int
  | .num n => n
  | .bn b => b

/-- JS truthiness of a `number | BN` value: the number `0` is falsy, while
a `BN` is an object and is always truthy — even `new BN(0)`. -/
def NumberOrBN.jsTruthy : NumberOrBN → Bool
  | .num n => n != 0
  | .bn _ => true

/-- A JS `Error` value (including the SDK's `RFlowError` subclasses, which
extend `Error` with `name`, optional `code`, `logs`, and for `FetchError` a
`cause`). -/
structure RFlowErrorValue where
  name : String
  message : String
  code : Option Int := none
  logs : Option (List String) := none
  cause : Option (String × String) := none
deriving DecidableEq

/-- A plain `new Error(message)` (name `"Error"`, no code/logs/cause). -/
def plainJsError (message : String) : RFlowErrorValue :=
  { name := "Error", message := message }

/-- Embedding of `toBN` (`src/utils/bn.ts`): a negative JS number throws a
plain `Error`; a `BN` is returned unchanged. -/
def toBN : NumberOrBN → Except RFlowErrorValue Int
  | .num n =>
    if n < 0 then
      .error (plainJsError ("Cannot convert negative number to BN: " ++ intToString n))
    else .ok n
  | .bn b => .ok b

/-- Embedding of `bnToDate` (`src/utils/bn.ts`): a zero timestamp decodes to
`null`, otherwise `new Date(ts * 1000)` (a `Date` is modelled as ms since
epoch). -/
def bnToDate (timestamp : Int) : Option Int :=
  if timestamp = 0 then none else some (timestamp * 1000)

/-- Embedding of `formatAmount` (`src/utils/bn.ts`): renders
`integerPart.fractionalPart` with the fractional part left-padded with `'0'`
to `decimals` digits. -/
def formatAmount (amount : Nat) (decimals : Nat) : String :=
  let divisor := 10 ^ decimals
  let integerPart := amount / divisor
  let fractionalPart := amount % divisor
  let fractionalStr := padStartList (natToDecimal fractionalPart) decimals '0'
  String.mk (natToDecimal integerPart ++ '.' :: fractionalStr)

/-- Embedding of the regex `AMOUNT_PATTERN = /^(\d+)(?:\.(\d+))?$/` from
`src/utils/bn.ts`: on a match, returns the two capture groups (the second is
`[]` when the optional fractional group is absent). The greedy `\d+` runs up
to the single permitted `'.'`; a second `'.'` or any non-digit rejects. -/
def matchAmountPattern (l : List Char) : Option (List Char × List Char) :=
  if '.' ∈ l then
    let integerPart := l.takeWhile (fun c => c != '.')
    let fractionalPart := (l.dropWhile (fun c => c != '.')).tail
    if integerPart ≠ [] ∧ fractionalPart ≠ [] ∧
        (∀ c ∈ integerPart, c.isDigit = true) ∧
        (∀ c ∈ fractionalPart, c.isDigit = true) ∧ '.' ∉ fractionalPart then
      some (integerPart, fractionalPart)
    else none
  else if l ≠ [] ∧ ∀ c ∈ l, c.isDigit = true then some (l, []) else none

/-- Embedding of `parseAmount` (`src/utils/bn.ts`): trims, rejects the empty
string and any string outside `AMOUNT_PATTERN` with
`InvalidAmountFormatError`, then validates the `decimals` parameter (a JS
number, modelled as `ℚ` so that negative and non-integral values are
representable), pads/truncates the fractional digits to `decimals`, and
parses the concatenated digit string. -/
def parseAmount (value : String) (decimals : ℚ) : Except AmountError Nat :=
  let trimmed := trimList value.data
  if trimmed = [] then .error (.invalidAmountFormat value)
  else
    match matchAmountPattern trimmed with
    | none => .error (.invalidAmountFormat value)
    | some (integerPart, fractionalPart) =>
      if decimals < 0 ∨ ¬ decimals.isInt then .error (.invalidDecimals decimals)
      else
        let d := decimals.num.toNat
        let paddedFractional := (padEndList fractionalPart d '0').take d
        .ok (digitsVal (integerPart ++ paddedFractional))

/-! ## Error classifier (embedding of `src/errors.ts`) -/

/-- A value thrown by the transport collaborator and caught by a fetch
helper: either a JS `Error` instance (with a `name` and a `message`) or some
non-`Error` value. -/
inductive JsFault where
  | jsError (name : String) (message : String)
  | nonError
deriving DecidableEq

/-- Renders a `JsFault` into the `(name, message)` pair stored as the
`cause` of a `FetchError`. -/
def JsFault.causeRepr : JsFault → String × String
  | .jsError n m => (n, m)
  | .nonError => ("", "")

/-- Embedding of `isAccountNotFoundError` (`src/errors.ts`): an `Error`
whose lower-cased message contains one of four known "not found" phrasings. -/
def isAccountNotFoundError (error : JsFault) : Bool :=
  match error with
  | .jsError _ msg =>
    let m := jsToLowerCase msg.data
    containsSub m ("account does not exist").data ||
    containsSub m ("could not find").data ||
    containsSub m ("account not found").data ||
    containsSub m ("accountnotfound").data
  | .nonError => false

/-- Embedding of `FetchError` (`src/errors.ts`): an `RFlowError` with name
`"FetchError"` wrapping the underlying cause. -/
def fetchError (message : String) (cause : JsFault) : RFlowErrorValue :=
  { name := "FetchError", message := "Failed to fetch account: " ++ message,
    cause := some cause.causeRepr }

/-- Embedding of `InvalidInputError` (`src/errors.ts`). -/
def invalidInputError (message : String) : RFlowErrorValue :=
  { name := "InvalidInputError", message := message }

/-- Embedding of `ProtocolPausedError` (`src/errors.ts`). -/
def protocolPausedError : RFlowErrorValue :=
  { name := "ProtocolPausedError", message := "Protocol is currently paused",
    code := some 6000 }

/-- Embedding of `InvalidDurationError` (`src/errors.ts`). -/
def invalidDurationError (duration : Int) : RFlowErrorValue :=
  { name := "InvalidDurationError",
    message := "Invalid duration: " ++ intToString duration ++
      ". Must be 30, 60, 90, 180, or 365 days",
    code := some 6001 }

/-- A JS `number | string` value (used for a deal id in error context). -/
inductive NumOrStr where
  | num (n : Int)
  | str (s : String)
deriving DecidableEq

/-- String interpolation of a `number | string` value. -/
def NumOrStr.render : NumOrStr → String
  | .num n => intToString n
  | .str s => s

/-- JS truthiness of a `number | string` value (`0` and `""` are falsy). -/
def NumOrStr.truthy : NumOrStr → Bool
  | .num n => n != 0
  | .str s => s != ""

/-- Embedding of `DealNotAvailableError` (`src/errors.ts`). -/
def dealNotAvailableError (dealId : NumOrStr) : RFlowErrorValue :=
  { name := "DealNotAvailableError",
    message := "Deal " ++ dealId.render ++ " is not available for purchase",
    code := some 6004 }

/-- Embedding of `UnauthorizedError` (`src/errors.ts`). -/
def unauthorizedError (message : String) : RFlowErrorValue :=
  { name := "UnauthorizedError", message := message, code := some 6012 }

/-- Embedding of the generic `RFlowError` constructor (`src/errors.ts`). -/
def rflowError (message : String) (code : Option Int)
    (logs : Option (List String)) : RFlowErrorValue :=
  { name := "RFlowError", message := message, code := code, logs := logs }

/-- Embedding of `ErrorContext` (`src/errors.ts`). -/
structure ErrorContext where
  dealId : Option NumOrStr := none
  duration : Option Int := none
  operation : Option String := none
deriving DecidableEq

/-- Embedding of `extractNumberFromMessage` (`src/errors.ts`): first maximal
run of decimal digits in the message, parsed with `parseInt(-, 10)`. -/
def extractNumberFromMessage (message : String) : Option Nat :=
  let digits := (message.data.dropWhile (fun c => !c.isDigit)).takeWhile
    (fun c => c.isDigit)
  if digits = [] then none else some (digitsVal digits)

/-- Input to `parseAnchorError`: either an existing `RFlowError` instance
(returned unchanged) or an object-like fault with optional `code`, `msg`,
`message` and `logs` fields. -/
inductive AnchorErrorInput where
  | rflowInstance (e : RFlowErrorValue)
  | fault (code : Option Int) (msg : Option String) (message : Option String)
      (logs : Option (List String))
deriving DecidableEq

/-- JS `a || b || "Unknown error"` on optional strings (`""` is falsy). -/
def firstTruthyString (a b : Option String) (dflt : String) : String :=
  match a with
  | some s => if s = "" then (match b with
      | some t => if t = "" then dflt else t
      | none => dflt)
    else s
  | none => match b with
    | some t => if t = "" then dflt else t
    | none => dflt

/-- JS `` context?.dealId ? ` (deal ${context.dealId})` : "" `` used by the
status-conflict branches of `parseAnchorError`. -/
def dealSuffix (context : Option ErrorContext) : String :=
  match context with
  | some ctx => match ctx.dealId with
    | some did => if did.truthy then " (deal " ++ did.render ++ ")" else ""
    | none => ""
  | none => ""

/-- JS `` context?.operation ? ` in ${context.operation}` : "" `` used by the
invalid-price/amount branches of `parseAnchorError`. -/
def operationSuffix (context : Option ErrorContext) : String :=
  match context with
  | some ctx => match ctx.operation with
    | some op => if op = "" then "" else " in " ++ op
    | none => ""
  | none => ""

/-- Embedding of `parseAnchorError` (`src/errors.ts`): idempotent on
existing `RFlowError` values, otherwise maps the numeric fault code through
the fixed 22-entry table, preferring caller-supplied context over numbers
scraped from the message for codes 6001 and 6004. -/
def parseAnchorError (error : AnchorErrorInput) (context : Option ErrorContext) :
    RFlowErrorValue :=
  match error with
  | .rflowInstance e => e
  | .fault code msg message logs =>
    let m := firstTruthyString msg message "Unknown error"
    match code with
    | some 6000 => protocolPausedError
    | some 6001 =>
      let duration : Int := match context.bind (·.duration) with
        | some d => d
        | none => match extractNumberFromMessage m with
          | some n => (n : Int)
          | none => 0
      invalidDurationError duration
    | some 6002 => rflowError ("Invalid price" ++ operationSuffix context) code logs
    | some 6003 => rflowError ("Invalid amount" ++ operationSuffix context) code logs
    | some 6004 =>
      let dealId : NumOrStr := match context.bind (·.dealId) with
        | some did => did
        | none => match extractNumberFromMessage m with
          | some n => .num (n : Int)
          | none => .str "unknown"
      dealNotAvailableError dealId
    | some 6005 => rflowError ("Deal is not active" ++ dealSuffix context) code logs
    | some 6006 => rflowError ("Deal has not ended yet" ++ dealSuffix context) code logs
    | some 6007 => rflowError ("Deal has already ended" ++ dealSuffix context) code logs
    | some 6008 => rflowError ("Deal is already active" ++ dealSuffix context) code logs
    | some 6009 => unauthorizedError "Only the seller can perform this action"
    | some 6010 => unauthorizedError "Only the buyer can perform this action"
    | some 6011 => rflowError "Insufficient funds" code logs
    | some 6012 => unauthorizedError m
    | some 6013 => rflowError "Math overflow - amount too large" code logs
    | some 6014 => rflowError "Invalid or non-whitelisted mint" code logs
    | some 6015 => rflowError "Whitelist is full" code logs
    | some 6016 => rflowError "Mint is already whitelisted" code logs
    | some 6017 => rflowError "Mint is not in whitelist" code logs
    | some 6018 => rflowError "Invalid Meteora position" code logs
    | some 6019 => rflowError "Position pool mismatch" code logs
    | some 6020 => rflowError "Invalid position NFT" code logs
    | some 6021 => unauthorizedError "Only the deal buyer can perform this action"
    | _ => rflowError m code logs

/-! ## Domain types and record transformer
(embedding of `src/types/enums.ts`, `src/types/accounts.ts`,
`src/accounts/meteora-deal.ts`, `src/accounts/config.ts`) -/

/-- Model of `PublicKey`, as a natural number. -/
abbrev Pubkey := Nat

/-- Model of `PublicKey.default`, the all-zero identity. -/
def Pubkey.defaultKey : Pubkey := 0

/-- Base58 rendering of a public key, modelled abstractly by decimal
rendering (only used inside human-readable messages). -/
def pubkeyToBase58 (p : Pubkey) : String := natToString p

/-- Embedding of the on-the-wire `AnchorDealStatus` single-key variant
object (`src/types/enums.ts`). -/
inductive AnchorDealStatus where
  | created
  | active
  | settled
  | cancelled
  | boughtBack
deriving DecidableEq

/-- Embedding of the SDK `DealStatus` enumeration (`src/types/enums.ts`). -/
inductive DealStatus where
  | created
  | active
  | settled
  | cancelled
  | boughtBack
deriving DecidableEq

/-- Embedding of `fromAnchorDealStatus` (`src/types/enums.ts`): the decoder
is total over the closed five-tag variant set. -/
def fromAnchorDealStatus : AnchorDealStatus → DealStatus
  | .created => .created
  | .active => .active
  | .settled => .settled
  | .cancelled => .cancelled
  | .boughtBack => .boughtBack

/-- Embedding of the SDK `SourceProtocol` enumeration (`src/types/enums.ts`). -/
inductive SourceProtocol where
  | kamino
  | marginFi
  | solend
  | save
  | marinade
  | jito
  | blaze
  | sanctum
  | lido
  | raydiumLp
  | meteoraLp
  | orcaLp
  | feeStream
deriving DecidableEq

/-- Embedding of the raw on-chain `MeteoraLpDealAccount`
(`src/types/accounts.ts`): amounts are decoded unsigned `BN`s (`Nat`),
timestamps are signed `BN`s (`Int`). -/
structure MeteoraLpDealAccount where
  dealId : Nat
  bump : Nat
  seller : Pubkey
  buyer : Pubkey
  positionNftMint : Pubkey
  positionAccount : Pubkey
  positionNftVault : Pubkey
  pool : Pubkey
  tokenAMint : Pubkey
  tokenBMint : Pubkey
  feeAAtLock : Nat
  feeBAtLock : Nat
  expectedFeeA : Nat
  expectedFeeB : Nat
  expectedFeeValueUsdc : Nat
  sellingPrice : Nat
  paymentMint : Pubkey
  durationDays : Nat
  createdAt : Int
  purchasedAt : Int
  endsAt : Int
  status : AnchorDealStatus
deriving DecidableEq

/-- Embedding of the SDK-facing `MeteoraLpDeal` entity (`src/types/sdk.ts`).
`createdAt` is `Option Int` because the source's non-null assertion on
`bnToDate(account.createdAt)` has no runtime effect. -/
structure MeteoraLpDeal where
  dealId : Nat
  bump : Nat
  pda : Pubkey
  seller : Pubkey
  buyer : Option Pubkey
  positionNftMint : Pubkey
  positionAccount : Pubkey
  positionNftVault : Pubkey
  pool : Pubkey
  tokenAMint : Pubkey
  tokenBMint : Pubkey
  feeAAtLock : Nat
  feeBAtLock : Nat
  expectedFeeA : Nat
  expectedFeeB : Nat
  expectedFeeValueUsdc : Nat
  sellingPrice : Nat
  paymentMint : Pubkey
  durationDays : Nat
  createdAt : Option Int
  purchasedAt : Option Int
  endsAt : Option Int
  status : DealStatus
  isAvailable : Bool
  isExpired : Bool
deriving DecidableEq

/-- Embedding of `transformMeteoraLpDeal` (`src/accounts/meteora-deal.ts`).
`now` is the value of `Date.now()` (ms since epoch), passed explicitly. -/
def transformMeteoraLpDeal (account : MeteoraLpDealAccount) (pda : Pubkey)
    (now : Int) : MeteoraLpDeal :=
  let status := fromAnchorDealStatus account.status
  let endsAt := bnToDate account.endsAt
  let isDefaultBuyer := account.buyer == Pubkey.defaultKey
  { dealId := account.dealId
    bump := account.bump
    pda := pda
    seller := account.seller
    buyer := if isDefaultBuyer then none else some account.buyer
    positionNftMint := account.positionNftMint
    positionAccount := account.positionAccount
    positionNftVault := account.positionNftVault
    pool := account.pool
    tokenAMint := account.tokenAMint
    tokenBMint := account.tokenBMint
    feeAAtLock := account.feeAAtLock
    feeBAtLock := account.feeBAtLock
    expectedFeeA := account.expectedFeeA
    expectedFeeB := account.expectedFeeB
    expectedFeeValueUsdc := account.expectedFeeValueUsdc
    sellingPrice := account.sellingPrice
    paymentMint := account.paymentMint
    durationDays := account.durationDays
    createdAt := bnToDate account.createdAt
    purchasedAt := bnToDate account.purchasedAt
    endsAt := endsAt
    status := status
    isAvailable := status == DealStatus.created
    isExpired := match endsAt with
      | some t => t < now
      | none => false }

/-- Embedding of `fetchMeteoraLpDeal` (`src/accounts/meteora-deal.ts`). The
transport call `program.account.meteoraLpDeal.fetch(dealPda)` is modelled by
its outcome `fetchResult`; the PDA derivation is modelled by the `dealPda`
argument. -/
def fetchMeteoraLpDeal (dealId : Nat) (dealPda : Pubkey) (now : Int)
    (fetchResult : Except JsFault MeteoraLpDealAccount) :
    Except RFlowErrorValue (Option MeteoraLpDeal) :=
  match fetchResult with
  | .ok account => .ok (some (transformMeteoraLpDeal account dealPda now))
  | .error e =>
    if isAccountNotFoundError e then .ok none
    else .error (fetchError ("MeteoraLpDeal " ++ natToString dealId) e)

/-- Embedding of `fetchMeteoraLpDealByPda` (`src/accounts/meteora-deal.ts`). -/
def fetchMeteoraLpDealByPda (dealPda : Pubkey) (now : Int)
    (fetchResult : Except JsFault MeteoraLpDealAccount) :
    Except RFlowErrorValue (Option MeteoraLpDeal) :=
  match fetchResult with
  | .ok account => .ok (some (transformMeteoraLpDeal account dealPda now))
  | .error e =>
    if isAccountNotFoundError e then .ok none
    else .error (fetchError ("MeteoraLpDeal at " ++ pubkeyToBase58 dealPda) e)

/-! ## Query/filter engine (embedding of `fetchAllMeteoraLpDeals`) -/

/-- Embedding of `DealFilters` (`src/types/sdk.ts`). `status` is a single
value or an array; the prices keep their source type `number | BN`. -/
structure DealFilters where
  status : Option (DealStatus ⊕ List DealStatus) := none
  seller : Option Pubkey := none
  buyer : Option Pubkey := none
  sourceProtocol : Option SourceProtocol := none
  minPrice : Option NumberOrBN := none
  maxPrice : Option NumberOrBN := none
deriving DecidableEq

/-- The filter pipeline of `fetchAllMeteoraLpDeals`
(`src/accounts/meteora-deal.ts`), applied in source order. Each price stage
is guarded by `if (filters.minPrice)` / `if (filters.maxPrice)` — JS
truthiness — so a native-number price of `0` is skipped and imposes no
constraint, while a `BN`-typed price is a truthy object and always filters
(even `new BN(0)`). The `sourceProtocol` field is not consulted by this
(Meteora) fetcher. -/
def applyDealFilters (filters : DealFilters) (deals0 : List MeteoraLpDeal) :
    List MeteoraLpDeal :=
  let deals1 := match filters.status with
    | none => deals0
    | some st =>
      let statuses := match st with
        | .inl s => [s]
        | .inr l => l
      deals0.filter (fun d => statuses.contains d.status)
  let deals2 := match filters.seller with
    | none => deals1
    | some s => deals1.filter (fun d => d.seller == s)
  let deals3 := match filters.buyer with
    | none => deals2
    | some b => deals2.filter (fun d => (d.buyer.map (fun x => x == b)).getD false)
  let deals4 := match filters.minPrice with
    | none => deals3
    | some m =>
      if m.jsTruthy then
        deals3.filter (fun d => m.value ≤ (d.sellingPrice : Int))
      else deals3
  match filters.maxPrice with
  | none => deals4
  | some m =>
    if m.jsTruthy then
      deals4.filter (fun d => (d.sellingPrice : Int) ≤ m.value)
    else deals4

/-- Embedding of `fetchAllMeteoraLpDeals` (`src/accounts/meteora-deal.ts`):
the transport's `program.account.meteoraLpDeal.all()` is modelled by the
`accounts` list of `(publicKey, account)` pairs. -/
def fetchAllMeteoraLpDeals (accounts : List (Pubkey × MeteoraLpDealAccount))
    (now : Int) (filters : Option DealFilters) : List MeteoraLpDeal :=
  let deals := accounts.map (fun acc => transformMeteoraLpDeal acc.2 acc.1 now)
  match filters with
  | none => deals
  | some f => applyDealFilters f deals

/-- Specification-side conjunctive predicate, following the spec's words:
every specified field must match and an unspecified field imposes no
constraint — with no exemption of any kind for a zero price. This is the
predicate the claim asserts of the program; it is to be compared with the
filter pipeline embedded from the source. -/
def matchesDealFilters (filters : DealFilters) (d : MeteoraLpDeal) : Bool :=
  (match filters.status with
    | none => true
    | some st =>
      let statuses := match st with
        | .inl s => [s]
        | .inr l => l
      statuses.contains d.status) &&
  (match filters.seller with
    | none => true
    | some s => d.seller == s) &&
  (match filters.buyer with
    | none => true
    | some b => (d.buyer.map (fun x => x == b)).getD false) &&
  (match filters.minPrice with
    | none => true
    | some m => m.value ≤ (d.sellingPrice : Int)) &&
  (match filters.maxPrice with
    | none => true
    | some m => (d.sellingPrice : Int) ≤ m.value)

/-- The per-deal predicate the code actually applies: like
`matchesDealFilters` but with the JS truthiness guard, so a falsy (native
number `0`) `minPrice` or `maxPrice` imposes no constraint even though it
is specified. -/
def matchesDealFiltersJs (filters : DealFilters) (d : MeteoraLpDeal) : Bool :=
  (match filters.status with
    | none => true
    | some st =>
      let statuses := match st with
        | .inl s => [s]
        | .inr l => l
      statuses.contains d.status) &&
  (match filters.seller with
    | none => true
    | some s => d.seller == s) &&
  (match filters.buyer with
    | none => true
    | some b => (d.buyer.map (fun x => x == b)).getD false) &&
  (match filters.minPrice with
    | none => true
    | some m => if m.jsTruthy then decide (m.value ≤ (d.sellingPrice : Int)) else true) &&
  (match filters.maxPrice with
    | none => true
    | some m => if m.jsTruthy then decide ((d.sellingPrice : Int) ≤ m.value) else true)

/-! ## Protocol config and pause check
(embedding of `src/accounts/config.ts` and `RFlowClient.isPaused`) -/

/-- Embedding of the raw on-chain `ProtocolConfigAccount`. -/
structure ProtocolConfigAccount where
  authority : Pubkey
  treasury : Pubkey
  feeBps : Nat
  minDurationDays : Nat
  maxDurationDays : Nat
  basePenaltyBps : Nat
  minPenaltyBps : Nat
  isPaused : Bool
  dealCounter : Nat
  allowedMints : List Pubkey
deriving DecidableEq

/-- Embedding of the SDK-facing `ProtocolConfig` (`src/types/sdk.ts`). -/
structure ProtocolConfig where
  authority : Pubkey
  treasury : Pubkey
  feeBps : Nat
  minDurationDays : Nat
  maxDurationDays : Nat
  basePenaltyBps : Nat
  minPenaltyBps : Nat
  isPaused : Bool
  dealCounter : Nat
  allowedMints : List Pubkey
deriving DecidableEq

/-- Embedding of `transformProtocolConfig` (`src/accounts/config.ts`). -/
def transformProtocolConfig (account : ProtocolConfigAccount) : ProtocolConfig :=
  { authority := account.authority
    treasury := account.treasury
    feeBps := account.feeBps
    minDurationDays := account.minDurationDays
    maxDurationDays := account.maxDurationDays
    basePenaltyBps := account.basePenaltyBps
    minPenaltyBps := account.minPenaltyBps
    isPaused := account.isPaused
    dealCounter := account.dealCounter
    allowedMints := account.allowedMints }

/-- Embedding of `fetchProtocolConfig` (`src/accounts/config.ts`): a
"not found" transport fault yields `null`, any other fault a `FetchError`. -/
def fetchProtocolConfig (fetchResult : Except JsFault ProtocolConfigAccount) :
    Except RFlowErrorValue (Option ProtocolConfig) :=
  match fetchResult with
  | .ok account => .ok (some (transformProtocolConfig account))
  | .error e =>
    if isAccountNotFoundError e then .ok none
    else .error (fetchError "ProtocolConfig" e)

/-- Embedding of `RFlowClient.isPaused` (client source): awaits
`getConfig()` (= `fetchProtocolConfig`) and returns
`config?.isPaused ?? false`; a rejected fetch propagates. -/
def clientIsPaused (configResult : Except RFlowErrorValue (Option ProtocolConfig)) :
    Except RFlowErrorValue Bool :=
  match configResult with
  | .error e => .error e
  | .ok config => .ok (match config with
    | some c => c.isPaused
    | none => false)

/-! ## Input validator (embedding of the client's validation helpers) -/

/-- Embedding of `assertPositive` (client source): converts through `toBN`
(whose negative-number failure propagates), then rejects zero and negative
values with `InvalidInputError`. -/
def assertPositive (value : NumberOrBN) (fieldName : String) :
    Except RFlowErrorValue Unit := do
  let bn ← toBN value
  if bn = 0 then
    throw (invalidInputError (fieldName ++ " must be greater than zero"))
  else if bn < 0 then
    throw (invalidInputError (fieldName ++ " cannot be negative"))
  else pure ()

/-- Embedding of `assertNonNegative` (client source). -/
def assertNonNegative (value : NumberOrBN) (fieldName : String) :
    Except RFlowErrorValue Unit := do
  let bn ← toBN value
  if bn < 0 then
    throw (invalidInputError (fieldName ++ " cannot be negative"))
  else pure ()

/-- Embedding of `CreateYieldDealInput` (`src/types/sdk.ts`), restricted to
the fields the validator and instruction assembly consult. -/
structure CreateYieldDealInput where
  receiptTokenMint : Pubkey
  receiptTokensAmount : NumberOrBN
  principalValueAtLock : NumberOrBN
  expectedYield : NumberOrBN
  sellingPrice : NumberOrBN
  durationDays : Nat
  sourceProtocol : SourceProtocol
  paymentMint : Option Pubkey := none
deriving DecidableEq

/-- Embedding of `validateYieldDealInput` (client source): field checks in
source order, then the business rule `sellingPrice ≤ expectedYield`. -/
def validateYieldDealInput (input : CreateYieldDealInput) :
    Except RFlowErrorValue Unit := do
  assertPositive input.receiptTokensAmount "receiptTokensAmount"
  assertPositive input.principalValueAtLock "principalValueAtLock"
  assertNonNegative input.expectedYield "expectedYield"
  assertPositive input.sellingPrice "sellingPrice"
  let sellingPriceBN ← toBN input.sellingPrice
  let expectedYieldBN ← toBN input.expectedYield
  if expectedYieldBN < sellingPriceBN then
    throw (invalidInputError ("sellingPrice (" ++ intToString sellingPriceBN ++
      ") cannot exceed expectedYield (" ++ intToString expectedYieldBN ++ ")"))
  else pure ()

/-- A concrete raw deal record used to instantiate theorems: freshly
created (status tag `created`), not purchased (buyer is the default key,
zero `purchasedAt` and `endsAt`). -/
def baseAccount : MeteoraLpDealAccount :=
  { dealId := 1, bump := 254, seller := 11, buyer := Pubkey.defaultKey,
    positionNftMint := 21, positionAccount := 22, positionNftVault := 23,
    pool := 24, tokenAMint := 25, tokenBMint := 26,
    feeAAtLock := 0, feeBAtLock := 0, expectedFeeA := 40, expectedFeeB := 50,
    expectedFeeValueUsdc := 90, sellingPrice := 80, paymentMint := 27,
    durationDays := 30, createdAt := 1700000000, purchasedAt := 0,
    endsAt := 0, status := .created }

/-! ### Lemmas about the digit-string helpers -/

theorem digitsVal_foldl_shift (r : List Char) :
    ∀ acc : Nat,
      r.foldl (fun acc c => acc * 10 + (c.toNat - 48)) acc =
        acc * 10 ^ r.length + digitsVal r := by
  induction r with
  | nil => intro acc; simp [digitsVal]
  | cons c r ih =>
    intro acc
    have h1 := ih (acc * 10 + (c.toNat - 48))
    have h2 := ih (0 * 10 + (c.toNat - 48))
    simp only [List.foldl_cons, List.length_cons, digitsVal] at *
    rw [h1, h2]
    ring

theorem digitsVal_append (l r : List Char) :
    digitsVal (l ++ r) = digitsVal l * 10 ^ r.length + digitsVal r := by
  unfold digitsVal
  rw [List.foldl_append]
  exact digitsVal_foldl_shift r _

theorem digitsVal_replicate_zero (k : Nat) :
    digitsVal (List.replicate k '0') = 0 := by
  induction k with
  | zero => rfl
  | succ k ih =>
    have h := digitsVal_foldl_shift (List.replicate k '0')
    unfold digitsVal at *
    simp only [List.replicate_succ, List.foldl_cons]
    rw [h]
    simp at ih ⊢
    exact ih

theorem digitChar_toNat {n : Nat} (h : n < 10) :
    (Nat.digitChar n).toNat = 48 + n := by
  interval_cases n <;> rfl

theorem digitChar_isDigit {n : Nat} (h : n < 10) :
    (Nat.digitChar n).isDigit = true := by
  interval_cases n <;> rfl

theorem natToDigitsRevFuel_congr :
    ∀ f1 f2 n : Nat, n < f1 → n < f2 →
      natToDigitsRevFuel f1 n = natToDigitsRevFuel f2 n := by
  intro f1
  induction f1 with
  | zero => intro f2 n h1 _; omega
  | succ f1 ih =>
    intro f2 n h1 h2
    cases f2 with
    | zero => omega
    | succ f2 =>
      by_cases h10 : n < 10
      · simp [natToDigitsRevFuel, h10]
      · simp only [natToDigitsRevFuel, if_neg h10]
        have hd : n / 10 < n := Nat.div_lt_self (by omega) (by omega)
        rw [ih f2 (n / 10) (by omega) (by omega)]

/-- One-step unfolding equation for `natToDigitsRev`. -/
theorem natToDigitsRev_eq (n : Nat) :
    natToDigitsRev n =
      if n < 10 then [Nat.digitChar n]
      else Nat.digitChar (n % 10) :: natToDigitsRev (n / 10) := by
  show natToDigitsRevFuel (n + 1) n = _
  by_cases h10 : n < 10
  · simp [natToDigitsRevFuel, h10]
  · simp only [natToDigitsRevFuel, if_neg h10]
    have hd : n / 10 < n := Nat.div_lt_self (by omega) (by omega)
    unfold natToDigitsRev
    rw [natToDigitsRevFuel_congr n (n / 10 + 1) (n / 10) (by omega) (by omega)]

theorem natToDigitsRev_ne_nil (n : Nat) : natToDigitsRev n ≠ [] := by
  rw [natToDigitsRev_eq]
  split <;> simp

theorem natToDigitsRev_all_digit (n : Nat) :
    ∀ c ∈ natToDigitsRev n, c.isDigit = true := by
  induction n using Nat.strong_induction_on with
  | _ n ih =>
    rw [natToDigitsRev_eq]
    split
    · intro c hc
      simp at hc
      subst hc
      exact digitChar_isDigit (by omega)
    · intro c hc
      rcases List.mem_cons.mp hc with h | h
      · subst h; exact digitChar_isDigit (Nat.mod_lt _ (by omega))
      · exact ih (n / 10) (Nat.div_lt_self (by omega) (by omega)) c h

theorem digitsVal_natToDecimal (n : Nat) :
    digitsVal (natToDecimal n) = n := by
  induction n using Nat.strong_induction_on with
  | _ n ih =>
    unfold natToDecimal
    rw [natToDigitsRev_eq]
    split
    · next h =>
      simp [digitsVal, digitChar_toNat h]
    · next h =>
      simp only [List.reverse_cons]
      rw [digitsVal_append]
      have hrec := ih (n / 10) (Nat.div_lt_self (by omega) (by omega))
      unfold natToDecimal at hrec
      rw [hrec]
      simp [digitsVal, digitChar_toNat (Nat.mod_lt n (show 0 < 10 by omega))]
      omega

theorem natToDigitsRev_length_le {n k : Nat} (hk : 1 ≤ k) (h : n < 10 ^ k) :
    (natToDigitsRev n).length ≤ k := by
  induction n using Nat.strong_induction_on generalizing k with
  | _ n ih =>
    rw [natToDigitsRev_eq]
    split
    · simpa using hk
    · next hn =>
      simp only [List.length_cons]
      have hk2 : 2 ≤ k := by
        by_contra hcon
        have : k = 1 := by omega
        subst this
        simp at h
        omega
      have hdiv : n / 10 < 10 ^ (k - 1) := by
        have h10 : (10 : Nat) ^ k = 10 ^ (k - 1) * 10 := by
          conv_lhs => rw [show k = (k - 1) + 1 by omega]
          rw [pow_succ]
        apply Nat.div_lt_of_lt_mul
        omega
      have := ih (n / 10) (Nat.div_lt_self (by omega) (by omega)) (by omega) hdiv
      omega

theorem natToDecimal_ne_nil (n : Nat) : natToDecimal n ≠ [] := by
  unfold natToDecimal
  simp [natToDigitsRev_ne_nil]

theorem natToDecimal_all_digit (n : Nat) :
    ∀ c ∈ natToDecimal n, c.isDigit = true := by
  intro c hc
  exact natToDigitsRev_all_digit n c (List.mem_reverse.mp hc)

theorem natToDecimal_length_le {n k : Nat} (hk : 1 ≤ k) (h : n < 10 ^ k) :
    (natToDecimal n).length ≤ k := by
  unfold natToDecimal
  rw [List.length_reverse]
  exact natToDigitsRev_length_le hk h

/-- A decimal digit character is not a whitespace character. -/
theorem isDigit_not_whitespace {c : Char} (h : c.isDigit = true) :
    c.isWhitespace = false := by
  by_contra hcon
  rw [Bool.not_eq_false] at hcon
  have hc : ((c = ' ' ∨ c = '\t') ∨ c = '\r') ∨ c = '\n' := by
    simpa [Char.isWhitespace, Bool.or_eq_true, decide_eq_true_eq] using hcon
  rcases hc with ((h' | h') | h') | h' <;> (subst h'; exact absurd h (by decide))

/-- A decimal digit character is not `'.'`. -/
theorem isDigit_ne_dot {c : Char} (h : c.isDigit = true) : c ≠ '.' := by
  intro hc
  subst hc
  simp [Char.isDigit] at h

theorem dropWhile_eq_self_of_not {p : Char → Bool} {l : List Char}
    (h : ∀ a ∈ l, p a = false) : l.dropWhile p = l := by
  cases l with
  | nil => rfl
  | cons a l =>
    rw [List.dropWhile_cons]
    simp [h a (by simp)]

/-- Trimming is the identity on a string with no whitespace characters. -/
theorem trimList_eq_self {l : List Char}
    (h : ∀ a ∈ l, a.isWhitespace = false) : trimList l = l := by
  unfold trimList
  rw [dropWhile_eq_self_of_not h, dropWhile_eq_self_of_not (by
    intro a ha
    exact h a (List.mem_reverse.mp ha)), List.reverse_reverse]

theorem takeWhile_append_cons (p : Char → Bool) (l r : List Char) (x : Char)
    (hl : ∀ a ∈ l, p a = true) (hx : p x = false) :
    (l ++ x :: r).takeWhile p = l := by
  induction l with
  | nil => simp [List.takeWhile_cons, hx]
  | cons a l ih =>
    simp only [List.cons_append, List.takeWhile_cons, hl a (by simp)]
    rw [ih (fun b hb => hl b (by simp [hb]))]
    simp

theorem dropWhile_append_cons (p : Char → Bool) (l r : List Char) (x : Char)
    (hl : ∀ a ∈ l, p a = true) (hx : p x = false) :
    (l ++ x :: r).dropWhile p = x :: r := by
  induction l with
  | nil => simp [List.dropWhile_cons, hx]
  | cons a l ih =>
    simp only [List.cons_append, List.dropWhile_cons, hl a (by simp)]
    exact ih (fun b hb => hl b (by simp [hb]))

theorem isPrefixOf_append_self (pat t : List Char) :
    pat.isPrefixOf (pat ++ t) = true := by
  induction pat with
  | nil => simp [List.isPrefixOf]
  | cons c cs ih => simp [List.isPrefixOf, ih]

theorem containsSub_of_middle (s pat t : List Char) :
    containsSub (s ++ (pat ++ t)) pat = true := by
  unfold containsSub
  rw [List.any_eq_true]
  refine ⟨pat ++ t, ?_, ?_⟩
  · rw [List.mem_tails]
    exact ⟨s, rfl⟩
  · exact isPrefixOf_append_self pat t

/-! ### Lemmas about the amount codec -/

theorem padStart_all_digit (l : List Char) (d : Nat)
    (h : ∀ c ∈ l, c.isDigit = true) :
    ∀ c ∈ padStartList l d '0', c.isDigit = true := by
  intro c hc
  unfold padStartList at hc
  rcases List.mem_append.mp hc with h' | h'
  · rw [List.eq_of_mem_replicate h']; decide
  · exact h c h'

theorem padStartList_ne_nil {l : List Char} {d : Nat} {c : Char}
    (h : l ≠ []) : padStartList l d c ≠ [] := by
  unfold padStartList
  simp [h]

theorem digitsVal_padStart (l : List Char) (d : Nat) :
    digitsVal (padStartList l d '0') = digitsVal l := by
  unfold padStartList
  rw [digitsVal_append, digitsVal_replicate_zero]
  ring

theorem formatAmount_data (a d : Nat) :
    (formatAmount a d).data =
      natToDecimal (a / 10 ^ d) ++ '.' ::
        padStartList (natToDecimal (a % 10 ^ d)) d '0' := rfl

theorem trimList_formatAmount (a d : Nat) :
    trimList (formatAmount a d).data = (formatAmount a d).data := by
  apply trimList_eq_self
  rw [formatAmount_data]
  intro c hc
  rcases List.mem_append.mp hc with h' | h'
  · exact isDigit_not_whitespace (natToDecimal_all_digit _ c h')
  · rcases List.mem_cons.mp h' with h'' | h''
    · subst h''; decide
    · exact isDigit_not_whitespace
        (padStart_all_digit _ _ (natToDecimal_all_digit _) c h'')

theorem formatAmount_data_ne_nil (a d : Nat) :
    (formatAmount a d).data ≠ [] := by
  rw [formatAmount_data]
  simp

theorem matchAmountPattern_format (a d : Nat) :
    matchAmountPattern (formatAmount a d).data =
      some (natToDecimal (a / 10 ^ d),
        padStartList (natToDecimal (a % 10 ^ d)) d '0') := by
  rw [formatAmount_data]
  have hIdig := natToDecimal_all_digit (a / 10 ^ d)
  have hFdig :=
    padStart_all_digit (natToDecimal (a % 10 ^ d)) d
      (natToDecimal_all_digit (a % 10 ^ d))
  set I := natToDecimal (a / 10 ^ d) with hIdef
  set F := padStartList (natToDecimal (a % 10 ^ d)) d '0' with hFdef
  have hdot : ('.' : Char) ∈ I ++ '.' :: F := by simp
  have hInel : ∀ c ∈ I, (c != '.') = true := fun c hc =>
    bne_iff_ne.mpr (isDigit_ne_dot (hIdig c hc))
  have htake : (I ++ '.' :: F).takeWhile (fun c => c != '.') = I :=
    takeWhile_append_cons _ I F '.' hInel (by simp)
  have hdrop : (I ++ '.' :: F).dropWhile (fun c => c != '.') = '.' :: F :=
    dropWhile_append_cons _ I F '.' hInel (by simp)
  unfold matchAmountPattern
  rw [if_pos hdot]
  simp only [htake, hdrop, List.tail_cons]
  rw [if_pos]
  refine ⟨natToDecimal_ne_nil _, ?_, hIdig, hFdig, ?_⟩
  · rw [hFdef]
    exact padStartList_ne_nil (natToDecimal_ne_nil _)
  · intro hdotF
    exact isDigit_ne_dot (hFdig '.' hdotF) rfl

theorem padStart_fractional_length (a d : Nat) (hpos : 0 < d) :
    (padStartList (natToDecimal (a % 10 ^ d)) d '0').length = d := by
  have hmod : a % 10 ^ d < 10 ^ d := Nat.mod_lt _ (Nat.pos_pow_of_pos d (by omega))
  have hlen : (natToDecimal (a % 10 ^ d)).length ≤ d :=
    natToDecimal_length_le hpos hmod
  unfold padStartList
  rw [List.length_append, List.length_replicate]
  omega

/-! ## Claim C2: format/parse round trip -/

/-- Claim C2: for every amount `a` and decimal count `d ≥ 0`, parsing the
formatted decimal string with the same decimal count round-trips to the
original amount: `parseAmount (formatAmount a d) d = a`. -/
theorem parseAmount_formatAmount_roundtrip (a d : Nat) :
    parseAmount (formatAmount a d) (d : ℚ) = .ok a := by
  unfold parseAmount
  rw [trimList_formatAmount]
  rw [if_neg (formatAmount_data_ne_nil a d)]
  simp only [matchAmountPattern_format]
  have hcond : ¬(((d : ℚ)) < 0 ∨ ¬ (((d : ℚ)).isInt = true)) := by
    push_neg
    refine ⟨by positivity, ?_⟩
    simp [Rat.isInt, Rat.den_natCast]
  rw [if_neg hcond]
  have hnum : (((d : ℚ)).num.toNat) = d := by
    rw [Rat.num_natCast, Int.toNat_natCast]
  rw [hnum]
  rcases Nat.eq_zero_or_pos d with h0 | hpos
  · subst h0
    simp only [pow_zero, Nat.mod_one, Nat.div_one, List.take_zero]
    rw [List.append_nil, digitsVal_natToDecimal]
  · have hFlen := padStart_fractional_length a d hpos
    have hpad : padEndList (padStartList (natToDecimal (a % 10 ^ d)) d '0') d '0' =
        padStartList (natToDecimal (a % 10 ^ d)) d '0' := by
      unfold padEndList
      rw [hFlen]
      simp
    have htake : List.take d (padStartList (natToDecimal (a % 10 ^ d)) d '0') =
        padStartList (natToDecimal (a % 10 ^ d)) d '0' :=
      List.take_of_length_le (le_of_eq hFlen)
    rw [hpad, htake, digitsVal_append, hFlen, digitsVal_padStart,
      digitsVal_natToDecimal, digitsVal_natToDecimal]
    congr 1
    exact Nat.div_add_mod' a (10 ^ d)

/-! ## Claim C10: format validation precedes decimals validation -/

/-- Claim C10: `parseAmount` validates the input string's format before the
`decimals` parameter: every string that is empty after trimming or fails
the decimal pattern raises `InvalidAmountFormatError` for every `decimals`
value (even a negative or non-integral one), and the invalid-decimals error
can only be raised for a well-formed string. -/
theorem parseAmount_format_before_decimals (value : String) (decimals : ℚ) :
    (trimList value.data = [] ∨ matchAmountPattern (trimList value.data) = none →
      parseAmount value decimals = .error (.invalidAmountFormat value)) ∧
    (parseAmount value decimals = .error (.invalidDecimals decimals) →
      trimList value.data ≠ [] ∧
      (matchAmountPattern (trimList value.data)).isSome = true) := by
  constructor
  · intro h
    unfold parseAmount
    rcases h with h | h
    · rw [if_pos h]
    · by_cases he : trimList value.data = []
      · rw [if_pos he]
      · rw [if_neg he, h]
  · intro h
    unfold parseAmount at h
    by_cases he : trimList value.data = []
    · rw [if_pos he] at h
      exact absurd h (by simp)
    · rw [if_neg he] at h
      refine ⟨he, ?_⟩
      cases hm : matchAmountPattern (trimList value.data) with
      | none =>
        rw [hm] at h
        exact absurd h (by simp)
      | some p => simp [hm]

/-- Witness for claim C10: the doubly malformed string `"12.3.4"` fails
with `InvalidAmountFormatError` even for the negative non-integral decimals
value `-1/2`. -/
theorem parseAmount_format_before_decimals_witness :
    parseAmount "12.3.4" (-(1 : ℚ)/2) =
      .error (.invalidAmountFormat "12.3.4") :=
  (parseAmount_format_before_decimals "12.3.4" (-(1 : ℚ)/2)).1
    (Or.inr (by decide))

/-! ## Claim C1: decoding a record with the default buyer -/

/-- Claim C1 (amended): for every raw deal record whose buyer field equals
the all-zero/default identity and that is not yet purchased (zero raw
`purchasedAt` and `endsAt`, status tag `created`), the record transformer
produces a domain entity with buyer absent, `purchasedAt` absent, `endsAt`
absent, `isAvailable = true` and `isExpired = false`. -/
theorem transformMeteoraLpDeal_defaultBuyer_fresh
    (account : MeteoraLpDealAccount) (pda : Pubkey) (now : Int)
    (hbuyer : account.buyer = Pubkey.defaultKey)
    (hpurch : account.purchasedAt = 0)
    (hends : account.endsAt = 0)
    (hstatus : account.status = AnchorDealStatus.created) :
    (transformMeteoraLpDeal account pda now).buyer = none ∧
    (transformMeteoraLpDeal account pda now).purchasedAt = none ∧
    (transformMeteoraLpDeal account pda now).endsAt = none ∧
    (transformMeteoraLpDeal account pda now).isAvailable = true ∧
    (transformMeteoraLpDeal account pda now).isExpired = false := by
  simp [transformMeteoraLpDeal, bnToDate, hbuyer, hpurch, hends, hstatus,
    fromAnchorDealStatus]

/-- Witness for claim C1 at a concrete freshly created record. -/
theorem transformMeteoraLpDeal_defaultBuyer_fresh_witness :
    (transformMeteoraLpDeal baseAccount 7 1700000500000).buyer = none ∧
    (transformMeteoraLpDeal baseAccount 7 1700000500000).purchasedAt = none ∧
    (transformMeteoraLpDeal baseAccount 7 1700000500000).endsAt = none ∧
    (transformMeteoraLpDeal baseAccount 7 1700000500000).isAvailable = true ∧
    (transformMeteoraLpDeal baseAccount 7 1700000500000).isExpired = false :=
  transformMeteoraLpDeal_defaultBuyer_fresh baseAccount 7 1700000500000
    (by decide) (by decide) (by decide) (by decide)

/-- Counterexample for claim C1 as stated: a default buyer alone does not
force the other four outputs. Three records with the default buyer but a
nonzero raw `purchasedAt`, a nonzero raw `endsAt`, or a non-`created`
status tag decode to entities with `purchasedAt` present, `endsAt` present,
or `isAvailable = false` respectively. -/
theorem transformMeteoraLpDeal_defaultBuyer_counterexample :
    ({ baseAccount with purchasedAt := 5 } : MeteoraLpDealAccount).buyer =
      Pubkey.defaultKey ∧
    (transformMeteoraLpDeal { baseAccount with purchasedAt := 5 } 7 0).purchasedAt ≠
      none ∧
    ({ baseAccount with endsAt := 5 } : MeteoraLpDealAccount).buyer =
      Pubkey.defaultKey ∧
    (transformMeteoraLpDeal { baseAccount with endsAt := 5 } 7 0).endsAt ≠ none ∧
    ({ baseAccount with status := .active } : MeteoraLpDealAccount).buyer =
      Pubkey.defaultKey ∧
    (transformMeteoraLpDeal { baseAccount with status := .active } 7 0).isAvailable =
      false := by
  decide

/-! ## Claim C3: selling price versus expected yield validation -/

theorem containsSub_eq_true_of {l pat : List Char} (s t : List Char)
    (h : l = s ++ (pat ++ t)) : containsSub l pat = true :=
  h ▸ containsSub_of_middle s pat t

/-- Claim C3: for every yield-deal creation input whose other field checks
pass, validation fails with `InvalidInputError` exactly when `sellingPrice`
exceeds `expectedYield` (and passes otherwise), and the error message names
both quantities (the field names `sellingPrice` and `expectedYield` and
both rendered values appear in it). -/
theorem validateYieldDealInput_sellingPrice_check
    (input : CreateYieldDealInput) (sp ey : Int)
    (h1 : assertPositive input.receiptTokensAmount "receiptTokensAmount" = .ok ())
    (h2 : assertPositive input.principalValueAtLock "principalValueAtLock" = .ok ())
    (h3 : assertNonNegative input.expectedYield "expectedYield" = .ok ())
    (h4 : assertPositive input.sellingPrice "sellingPrice" = .ok ())
    (hsp : toBN input.sellingPrice = .ok sp)
    (hey : toBN input.expectedYield = .ok ey) :
    validateYieldDealInput input =
      (if ey < sp then
        .error (invalidInputError ("sellingPrice (" ++ intToString sp ++
          ") cannot exceed expectedYield (" ++ intToString ey ++ ")"))
      else .ok ()) ∧
    strContains ("sellingPrice (" ++ intToString sp ++
      ") cannot exceed expectedYield (" ++ intToString ey ++ ")")
      "sellingPrice" = true ∧
    strContains ("sellingPrice (" ++ intToString sp ++
      ") cannot exceed expectedYield (" ++ intToString ey ++ ")")
      "expectedYield" = true := by
  have hsell : ("sellingPrice (" : String).data =
      "sellingPrice".data ++ " (".data := by decide
  have hexp : (") cannot exceed expectedYield (" : String).data =
      ") cannot exceed ".data ++ ("expectedYield".data ++ " (".data) := by
    decide
  refine ⟨?_, ?_, ?_⟩
  · simp only [validateYieldDealInput, bind, Except.bind, h1, h2, h3, h4,
      hsp, hey, throw, throwThe, MonadExceptOf.throw, pure, Except.pure]
  · unfold strContains
    apply containsSub_eq_true_of []
      (" (".data ++ ((intToString sp).data ++ (") cannot exceed ".data ++
        ("expectedYield".data ++ (" (".data ++ ((intToString ey).data ++
          ")".data))))))
    simp [String.data_append, hsell, hexp, List.append_assoc]
  · unfold strContains
    apply containsSub_eq_true_of
      ("sellingPrice".data ++ (" (".data ++ ((intToString sp).data ++
        ") cannot exceed ".data)))
      (" (".data ++ ((intToString ey).data ++ ")".data))
    simp [String.data_append, hsell, hexp, List.append_assoc]

/-- Witness for claim C3 at a concrete input with `sellingPrice = 90`
exceeding `expectedYield = 70` (all other field checks passing). -/
theorem validateYieldDealInput_sellingPrice_check_witness :
    validateYieldDealInput
      { receiptTokenMint := 5, receiptTokensAmount := .num 100,
        principalValueAtLock := .bn 1000, expectedYield := .num 70,
        sellingPrice := .bn 90, durationDays := 30,
        sourceProtocol := .kamino } =
      .error (invalidInputError
        "sellingPrice (90) cannot exceed expectedYield (70)") := by
  have h := (validateYieldDealInput_sellingPrice_check
    { receiptTokenMint := 5, receiptTokensAmount := .num 100,
      principalValueAtLock := .bn 1000, expectedYield := .num 70,
      sellingPrice := .bn 90, durationDays := 30,
      sourceProtocol := .kamino } 90 70 rfl rfl rfl rfl rfl rfl).1
  rw [h, if_pos (by decide)]
  rfl

/-! ## Claim C4: single-record fetch, absent versus classified fault -/

/-- Claim C4: for every single-record fetch (by id or by address), a
transport fault satisfying the four-phrasing not-found predicate yields an
absent result (`.ok none`), and every other transport fault yields a
`FetchError` wrapping the underlying cause. -/
theorem fetchMeteoraLpDeal_notFound_vs_fault (dealId : Nat)
    (dealPda byPda : Pubkey) (now : Int) (fault : JsFault) :
    fetchMeteoraLpDeal dealId dealPda now (.error fault) =
      (if isAccountNotFoundError fault then .ok none
       else .error (fetchError ("MeteoraLpDeal " ++ natToString dealId) fault)) ∧
    fetchMeteoraLpDealByPda byPda now (.error fault) =
      (if isAccountNotFoundError fault then .ok none
       else .error (fetchError ("MeteoraLpDeal at " ++ pubkeyToBase58 byPda) fault)) ∧
    (fetchError ("MeteoraLpDeal " ++ natToString dealId) fault).cause =
      some fault.causeRepr :=
  ⟨rfl, rfl, rfl⟩

/-! ## Claim C5: classifying code 6004 faults -/

/-- Claim C5 (amended): classifying a fault with code 6004 and no context
yields a `DealNotAvailableError` built from the number extracted from the
FIRST digit run of the message — so when that run parses to `123` the
message contains `"123"`; and with explicit context `{dealId: 123}` the
same `DealNotAvailableError` results for every message, even one with no
digits. -/
theorem parseAnchorError_6004_context_and_extraction (m msg2 : String)
    (h : extractNumberFromMessage m = some 123) :
    parseAnchorError (.fault (some 6004) none (some m) none) none =
      dealNotAvailableError (.num 123) ∧
    strContains (dealNotAvailableError (.num 123)).message "123" = true ∧
    parseAnchorError (.fault (some 6004) none (some msg2) none)
      (some { dealId := some (.num 123) }) =
      dealNotAvailableError (.num 123) := by
  have hm : m ≠ "" := by
    intro he
    subst he
    exact absurd h (by decide)
  have hfirst : firstTruthyString none (some m) "Unknown error" = m := by
    show (if m = "" then "Unknown error" else m) = m
    rw [if_neg hm]
  have hstep : parseAnchorError (.fault (some 6004) none (some m) none) none =
      dealNotAvailableError
        (match extractNumberFromMessage
            (firstTruthyString none (some m) "Unknown error") with
          | some n => NumOrStr.num (n : Int)
          | none => NumOrStr.str "unknown") := rfl
  refine ⟨?_, by decide, rfl⟩
  rw [hstep, hfirst, h]
  rfl

/-- Witness for claim C5 at concrete messages: `"deal 123 unavailable"`
(first digit run `123`) without context, and a digit-free message with
context `{dealId: 123}`. -/
theorem parseAnchorError_6004_context_and_extraction_witness :
    parseAnchorError
      (.fault (some 6004) none (some "deal 123 unavailable") none) none =
      dealNotAvailableError (.num 123) ∧
    strContains (dealNotAvailableError (.num 123)).message "123" = true ∧
    parseAnchorError
      (.fault (some 6004) none (some "completely digit-free") none)
      (some { dealId := some (.num 123) }) =
      dealNotAvailableError (.num 123) :=
  parseAnchorError_6004_context_and_extraction "deal 123 unavailable"
    "completely digit-free" (by decide)

/-- Counterexample for claim C5 as stated: the classifier extracts the
FIRST digit run, so code 6004 with no context and message
`"id 7 deal 123"` — which contains the digit sequence `"123"` — yields a
`DealNotAvailableError` about deal `7` whose message does not contain
`"123"`. -/
theorem parseAnchorError_6004_counterexample :
    strContains "id 7 deal 123" "123" = true ∧
    parseAnchorError (.fault (some 6004) none (some "id 7 deal 123") none)
      none = dealNotAvailableError (.num 7) ∧
    strContains (dealNotAvailableError (.num 7)).message "123" = false := by
  refine ⟨by decide, ?_, by decide⟩
  rfl

/-! ## Claim C6: purchase and end timestamps, both absent or both present -/

/-- Claim C6 (amended): the decoded `purchasedAt` and `endsAt` are either
both absent or both present for every raw record whose raw `purchasedAt`
and `endsAt` sentinels agree (both zero or both nonzero). -/
theorem transformMeteoraLpDeal_timestamps_both_or_neither
    (account : MeteoraLpDealAccount) (pda : Pubkey) (now : Int)
    (h : account.purchasedAt = 0 ↔ account.endsAt = 0) :
    ((transformMeteoraLpDeal account pda now).purchasedAt = none ↔
      (transformMeteoraLpDeal account pda now).endsAt = none) := by
  simp only [transformMeteoraLpDeal, bnToDate]
  split_ifs with h1 h2 h2 <;> simp_all

/-- Witness for claim C6 at a concrete record with both raw timestamps
zero. -/
theorem transformMeteoraLpDeal_timestamps_both_or_neither_witness :
    ((transformMeteoraLpDeal baseAccount 7 0).purchasedAt = none ↔
      (transformMeteoraLpDeal baseAccount 7 0).endsAt = none) :=
  transformMeteoraLpDeal_timestamps_both_or_neither baseAccount 7 0 (by decide)

/-- Counterexample for claim C6 as stated: the transformer decodes the two
timestamps independently, so a raw record with `purchasedAt = 0` but
`endsAt = 5` produces an entity with `purchasedAt` absent and `endsAt`
present. -/
theorem transformMeteoraLpDeal_timestamps_counterexample :
    (transformMeteoraLpDeal { baseAccount with endsAt := 5 } 9 0).purchasedAt =
      none ∧
    (transformMeteoraLpDeal { baseAccount with endsAt := 5 } 9 0).endsAt ≠
      none := by
  decide

/-! ## Claim C7: toBN and negative inputs -/

/-- Claim C7 (amended): a negative native-number input makes `toBN` fail
with the negative-value error; a non-negative native number converts to the
corresponding value; an arbitrary-precision (`BN`) input is returned
unchanged without any sign check, even a negative one. -/
theorem toBN_negative_number_spec (n b : Int) :
    (n < 0 → toBN (.num n) =
      .error (plainJsError ("Cannot convert negative number to BN: " ++
        intToString n))) ∧
    (0 ≤ n → toBN (.num n) = .ok n) ∧
    toBN (.bn b) = .ok b := by
  refine ⟨fun h => ?_, fun h => ?_, rfl⟩
  · simp [toBN, h]
  · simp [toBN, not_lt.mpr h]

/-- Witness for claim C7 at concrete inputs. -/
theorem toBN_negative_number_spec_witness :
    toBN (.num (-1)) =
      .error (plainJsError "Cannot convert negative number to BN: -1") ∧
    toBN (.num 3) = .ok 3 ∧ toBN (.bn (-2)) = .ok (-2) := by
  refine ⟨?_, (toBN_negative_number_spec 3 (-2)).2.1 (by decide),
    (toBN_negative_number_spec 3 (-2)).2.2⟩
  rw [(toBN_negative_number_spec (-1) (-2)).1 (by decide)]
  rfl

/-- Counterexample for claim C7 as stated: the negative arbitrary-precision
input `BN(-1)` does not fail — `toBN` returns it unchanged. -/
theorem toBN_negative_bn_counterexample :
    toBN (NumberOrBN.bn (-1)) = .ok (-1) ∧ (-1 : Int) < 0 :=
  ⟨rfl, by decide⟩

/-! ## Claim C8: conjunctive in-memory filtering -/

theorem applyDealFilters_eq_filter (filters : DealFilters)
    (deals : List MeteoraLpDeal) :
    applyDealFilters filters deals =
      deals.filter (fun d => matchesDealFiltersJs filters d) := by
  obtain ⟨st, se, bu, sp, minp, maxp⟩ := filters
  rcases st with _ | st <;> rcases se with _ | se <;> rcases bu with _ | bu <;>
    rcases minp with _ | minp <;> rcases maxp with _ | maxp <;>
    simp only [applyDealFilters, matchesDealFiltersJs] <;>
    (try split_ifs) <;>
    (first
      | (simp only [List.filter_filter]
         exact List.filter_congr (fun d _ => by
           simp [*, Bool.and_comm, Bool.and_left_comm, Bool.and_assoc]))
      | simp [*])

/-- Claim C8 (amended): filtering the fetched collection by
`{status: Created}` returns exactly the sublist of decoded deals whose
status equals `Created`, in the same relative order (the `List.filter` of
the decoded list). In general the filters apply as one in-memory per-deal
predicate in which every specified field must match — EXCEPT that a
specified `minPrice`/`maxPrice` given as the native number `0` is falsy
and is skipped (imposes no constraint), while a `BN`-typed price always
filters, `BN(0)` included; whenever every specified price is truthy the
pipeline coincides with the spec's unrestricted conjunctive predicate. -/
theorem fetchAllMeteoraLpDeals_filter_corrected
    (accounts : List (Pubkey × MeteoraLpDealAccount)) (now : Int)
    (filters : DealFilters) :
    fetchAllMeteoraLpDeals accounts now
        (some { status := some (.inl .created) }) =
      (accounts.map (fun acc => transformMeteoraLpDeal acc.2 acc.1 now)).filter
        (fun d => d.status == DealStatus.created) ∧
    (∀ deals : List MeteoraLpDeal,
      applyDealFilters filters deals =
        deals.filter (fun d => matchesDealFiltersJs filters d)) ∧
    (∀ deals : List MeteoraLpDeal,
      filters.minPrice.all NumberOrBN.jsTruthy = true →
      filters.maxPrice.all NumberOrBN.jsTruthy = true →
      applyDealFilters filters deals =
        deals.filter (fun d => matchesDealFilters filters d)) := by
  refine ⟨?_, fun deals => applyDealFilters_eq_filter filters deals, ?_⟩
  · simp only [fetchAllMeteoraLpDeals]
    rw [applyDealFilters_eq_filter]
    refine List.filter_congr (fun d _ => ?_)
    cases hst : d.status <;> simp [matchesDealFiltersJs, hst]
  · intro deals hmin hmax
    rw [applyDealFilters_eq_filter]
    refine List.filter_congr (fun d _ => ?_)
    obtain ⟨st, se, bu, sp, minp, maxp⟩ := filters
    simp only [Option.all] at hmin hmax
    simp only [matchesDealFiltersJs, matchesDealFilters]
    rcases minp with _ | m1 <;> rcases maxp with _ | m2 <;> simp_all

/-- Witness for claim C8: with the truthy price filter `maxPrice = BN(0)`
the pipeline provably coincides with the unrestricted conjunctive
predicate on a concrete decoded deal list. -/
theorem fetchAllMeteoraLpDeals_filter_corrected_witness :
    applyDealFilters { maxPrice := some (.bn 0) }
        [transformMeteoraLpDeal baseAccount 7 0] =
      List.filter
        (fun d => matchesDealFilters { maxPrice := some (.bn 0) } d)
        [transformMeteoraLpDeal baseAccount 7 0] :=
  (fetchAllMeteoraLpDeals_filter_corrected [] 0 { maxPrice := some (.bn 0) }).2.2
    [transformMeteoraLpDeal baseAccount 7 0] (by decide) (by decide)

/-- Counterexample for claim C8 as stated: the specified filter
`{maxPrice: 0}` (a native number, falsy) is skipped by the code, so the
fetch returns a deal with `sellingPrice = 80` even though the conjunctive
predicate of the claim rejects it; by contrast the truthy object `BN(0)`
does filter, removing the same deal. So "all specified fields must match
conjunctively" is false of the program. -/
theorem fetchAllMeteoraLpDeals_filter_counterexample :
    fetchAllMeteoraLpDeals [(7, baseAccount)] 0
        (some { maxPrice := some (.num 0) }) =
      [transformMeteoraLpDeal baseAccount 7 0] ∧
    matchesDealFilters { maxPrice := some (.num 0) }
      (transformMeteoraLpDeal baseAccount 7 0) = false ∧
    (transformMeteoraLpDeal baseAccount 7 0).sellingPrice = 80 ∧
    fetchAllMeteoraLpDeals [(7, baseAccount)] 0
        (some { maxPrice := some (.bn 0) }) = [] := by
  refine ⟨rfl, by decide, rfl, rfl⟩

/-! ## Claim C9: pause check on an uninitialized protocol -/

/-- Claim C9: when the protocol configuration record does not exist (the
transport fault satisfies the not-found predicate, so the config fetch
returns absent), `isPaused` returns `false` instead of failing. -/
theorem clientIsPaused_uninitialized (fault : JsFault)
    (h : isAccountNotFoundError fault = true) :
    clientIsPaused (fetchProtocolConfig (.error fault)) = .ok false := by
  simp [clientIsPaused, fetchProtocolConfig, h]

/-- Witness for claim C9 at a concrete not-found transport fault. -/
theorem clientIsPaused_uninitialized_witness :
    clientIsPaused (fetchProtocolConfig
      (.error (.jsError "Error" "Account does not exist"))) = .ok false :=
  clientIsPaused_uninitialized (.jsError "Error" "Account does not exist")
    (by decide)

end RFlowSdk
